import Mathlib

/-!
Shallow embedding of the request-governance core of the Kite-Trader
repository: the rate throttle (src/Throttle.py) and the HTTP outcome
classification of the request governor (Kite._req in
src/kitetrader/Kite.py).

Conventions of the embedding:
* Times are wall-clock nanoseconds, as in Python's time_ns, modelled as
  Nat.  The current time is passed explicitly to each operation.
* Python dict records holding a category's configuration and runtime
  state are modelled as a structure with Option fields for the keys that
  are only sometimes present ('rpm' is optional in the configuration;
  'start' is injected by the constructor; 'count' is never written by
  the constructor).  Reading an absent key raises KeyError, modelled
  with Except.
* Sleeping is modelled by returning the requested sleep duration
  (nanoseconds for Throttle.check, seconds for Throttle.penalise)
  instead of blocking; a call that never reaches a sleep statement
  reports no duration at all (none), which is distinct from sleeping a
  zero duration (some 0).
-/

namespace KiteTrader

/-- One category record of the throttle configuration dict.
The required key rps is a plain field; rpm is optional in the caller's
configuration; start and count model dict entries that may be absent
(the constructor writes start but never count). -/
structure CatState where
  rps : Nat
  rpm : Option Nat
  start : Option Nat
  count : Option Nat
deriving DecidableEq

/-- Python exceptions raised by the throttle code itself. -/
inductive PyError where
  | keyError (key : String)
deriving DecidableEq

/-- Nanoseconds in a second (Throttle.sec = 10**9 in the source). -/
def Throttle.sec : Nat := 10 ^ 9

/-- Nanoseconds in a minute (Throttle._min = sec * 60 in the source). -/
def Throttle.minNs : Nat := Throttle.sec * 60

/-- Throttle.round from the source: (x / base).__ceil__() * base, i.e. x
rounded up to the next multiple of base.  For natural x and positive
base the exact ceiling of x / base is (x + base - 1) / base; the float
arithmetic of the source is modelled exactly. -/
def Throttle.round (x base : Nat) : Nat :=
  ((x + base - 1) / base) * base

/-- Throttle.round is exactly the least multiple of base at or above x:
it is divisible by base, at least x, and less than x + base. -/
theorem Throttle.round_spec (x base : Nat) (hb : 0 < base) :
    base ∣ Throttle.round x base ∧ x ≤ Throttle.round x base ∧
      Throttle.round x base < x + base := by
  have h := Nat.div_add_mod (x + base - 1) base
  have hm := Nat.mod_lt (x + base - 1) hb
  have hr : Throttle.round x base = base * ((x + base - 1) / base) := by
    rw [Throttle.round, Nat.mul_comm]
  exact ⟨⟨(x + base - 1) / base, hr⟩, by omega, by omega⟩

/-- The body of Throttle.check acting on one category record, given the
current time in nanoseconds.  Returns the updated record together with
the sleep duration requested (none when no sleep statement is reached).
Mirrors the source:
  k[count] += 1                      -- KeyError if count absent
  if rpm in k and k[count] % k[rpm] == 0:
      elapsed = time_ns() - k[start]
      return sleep(round(elapsed, min) - elapsed)
  if k[count] % k[rps] == 0:
      elapsed = time_ns() - k[start]
      return sleep(round(elapsed, sec) - elapsed)
The two sequential if statements are mirrored by the nested match: when
the per-minute condition fails (rpm absent or count not a multiple), the
per-second check runs. -/
def Throttle.checkCat (now : Nat) (k : CatState) :
    Except PyError (CatState × Option Nat) :=
  match k.count with
  | none => .error (.keyError "count")
  | some c =>
    let k' : CatState := { k with count := some (c + 1) }
    match k.rpm with
    | some rpm =>
      if (c + 1) % rpm = 0 then
        match k.start with
        | none => .error (.keyError "start")
        | some st =>
          let elapsed := now - st
          .ok (k', some (Throttle.round elapsed Throttle.minNs - elapsed))
      else
        if (c + 1) % k.rps = 0 then
          match k.start with
          | none => .error (.keyError "start")
          | some st =>
            let elapsed := now - st
            .ok (k', some (Throttle.round elapsed Throttle.sec - elapsed))
        else .ok (k', none)
    | none =>
      if (c + 1) % k.rps = 0 then
        match k.start with
        | none => .error (.keyError "start")
        | some st =>
          let elapsed := now - st
          .ok (k', some (Throttle.round elapsed Throttle.sec - elapsed))
      else .ok (k', none)

/-- A sequence of Throttle.check calls on one category record, one call
per entry of the time list, threading the record state and collecting
each call's sleep duration. -/
def Throttle.checkRun (k : CatState) :
    List Nat → Except PyError (CatState × List (Option Nat))
  | [] => .ok (k, [])
  | t :: ts =>
    match Throttle.checkCat t k with
    | .error e => .error e
    | .ok (k', s) =>
      match Throttle.checkRun k' ts with
      | .error e => .error e
      | .ok (k'', ss) => .ok (k'', s :: ss)

/-- The throttle object: the configuration dict of category records plus
the penalty counter and its configured ceiling.  The source keeps
penalty_count as a Python class attribute initialised to 0; with the
single module-level instance used by the client this behaves as an
instance counter starting at 0, which is how it is modelled. -/
structure Throttle where
  config : List (String × CatState)
  penalty_count : Nat
  max_penalty_count : Nat
deriving DecidableEq

/-- Throttle.__init__: stamps the current time into the start key of
every category record (and touches nothing else in the records — in
particular count is never initialised), stores the configuration and
the penalty ceiling, and starts the penalty counter at 0. -/
def Throttle.init (config : List (String × CatState)) (ts : Nat)
    (maxPenaltyCount : Nat) : Throttle :=
  { config := config.map (fun p => (p.1, { p.2 with start := some ts })),
    penalty_count := 0,
    max_penalty_count := maxPenaltyCount }

/-- Throttle.penalise: increments the penalty counter, sleeps one
second, and returns whether the counter now exceeds the ceiling.
Result: (updated throttle, returned boolean, sleep duration in
seconds). -/
def Throttle.penalise (t : Throttle) : Throttle × Bool × Nat :=
  let t' : Throttle := { t with penalty_count := t.penalty_count + 1 }
  (t', decide (t'.penalty_count > t.max_penalty_count), 1)

/-- n successive calls to Throttle.penalise, keeping only the final
throttle state. -/
def Throttle.penaliseRun (t : Throttle) : Nat → Throttle
  | 0 => t
  | n + 1 => (Throttle.penalise (Throttle.penaliseRun t n)).1

/-- Throttle.check at the throttle level: looks the category up in the
configuration dict (KeyError when unregistered) and runs the record
step, writing the updated record back. -/
def Throttle.check (t : Throttle) (key : String) (now : Nat) :
    Except PyError (Throttle × Option Nat) :=
  match t.config.lookup key with
  | none => .error (.keyError key)
  | some k =>
    match Throttle.checkCat now k with
    | .error e => .error e
    | .ok (k', s) =>
      .ok ({ t with
              config := t.config.map
                (fun p => if p.1 = key then (p.1, k') else p) }, s)

/-- The throttle configuration dict of the client module
(throttle_config in Kite.py): raw records carrying only the rate keys. -/
def throttle_config : List (String × CatState) :=
  [("quote", ⟨1, none, none, none⟩),
   ("historical", ⟨3, none, none, none⟩),
   ("order", ⟨8, some 180, none, none⟩),
   ("default", ⟨8, none, none, none⟩)]

/-- An HTTP response as seen by Kite._req: status code and reason
phrase. -/
structure Resp where
  status_code : Nat
  reason : String
deriving DecidableEq

/-- Response.ok of the requests library: true exactly when
raise_for_status would not raise, i.e. when the status code is not a
4xx or 5xx code. -/
def Resp.ok (r : Resp) : Bool :=
  decide (r.status_code < 400 ∨ 600 ≤ r.status_code)

/-- Outcome of the transport call inside the try block of Kite._req:
either a completed response or a read timeout. -/
inductive TransportOutcome where
  | response (r : Resp)
  | readTimeout
deriving DecidableEq

/-- The exceptions Kite._req raises, by Python exception class. -/
inductive ReqError where
  | timeoutError (msg : String)
  | runtimeError (msg : String)
  | connectionError (msg : String)
deriving DecidableEq

/-- Observable side effects of one Kite._req classification. -/
inductive Effect where
  | penaliseCall
  | sleepSec (n : Nat)
  | unlinkCookie
deriving DecidableEq

def Effect.isPenalise : Effect → Bool
  | .penaliseCall => true
  | _ => false

def Effect.isUnlink : Effect → Bool
  | .unlinkCookie => true
  | _ => false

/-- Number of Throttle.penalise invocations recorded in a trace. -/
def countPenalise (tr : List Effect) : Nat :=
  tr.countP Effect.isPenalise

/-- Number of cookie-file deletions (Path.unlink calls) recorded in a
trace. -/
def countUnlink (tr : List Effect) : Nat :=
  tr.countP Effect.isUnlink

/-- State touched by Kite._req: the module-level throttle instance and
whether the persisted cookie file exists. -/
structure GovState where
  th : Throttle
  cookie_exists : Bool
deriving DecidableEq

/-- The f-string of the generic raise in Kite._req:
a message of the shape hint | code: reason. -/
def genericMsg (hint : String) (code : Nat) (reason : String) : String :=
  hint ++ " | " ++ toString code ++ ": " ++ reason

/-- The f-string of the fatal 429 raise in Kite._req: code: reason
(no hint). -/
def rateLimitMsg (code : Nat) (reason : String) : String :=
  toString code ++ ": " ++ reason

/-- The message of the TimeoutError raise in Kite._req. -/
def timeoutMsg (hint : String) : String :=
  hint ++ " | Request timed out"

/-- The local reason string of the 403 branch of Kite._req. -/
def sessionExpiredReason : String :=
  "Session expired or invalid. Must relogin"

/-- The local reason string of the 400 branch of Kite._req. -/
def badRequestReason : String :=
  "Missing or bad request parameters or values"

instance : DecidableEq (Except ReqError Resp) := fun a b =>
  match a, b with
  | .error e, .error f =>
    if h : e = f then isTrue (by rw [h])
    else isFalse (fun hh => h (Except.error.inj hh))
  | .ok x, .ok y =>
    if h : x = y then isTrue (by rw [h])
    else isFalse (fun hh => h (Except.ok.inj hh))
  | .error _, .ok _ => isFalse (fun hh => Except.noConfusion hh)
  | .ok _, .error _ => isFalse (fun hh => Except.noConfusion hh)

/-- Result of classifying one transport outcome: the value returned or
exception raised, the updated state, and the side-effect trace in
execution order. -/
structure ClassifyOut where
  result : Except ReqError Resp
  state : GovState
  trace : List Effect
deriving DecidableEq

/-- The code of Kite._req that runs after the 429 branch has not raised:
the 403 check (guarded cookie unlink, then raise), the 400 check, and
the final generic raise.  Control reaches this point either with
code = 429 after a non-fatal penalise, or with any other non-ok code. -/
def Kite.classifyTail (st : GovState) (hint : String) (code : Nat)
    (reason : String) (tr : List Effect) : ClassifyOut :=
  if code = 403 then
    let stTr :=
      if st.cookie_exists then
        ({ st with cookie_exists := false }, tr ++ [Effect.unlinkCookie])
      else (st, tr)
    ⟨.error (.connectionError (genericMsg hint code sessionExpiredReason)),
      stTr.1, stTr.2⟩
  else if code = 400 then
    ⟨.error (.connectionError (genericMsg hint code badRequestReason)),
      st, tr⟩
  else
    ⟨.error (.connectionError (genericMsg hint code reason)), st, tr⟩

/-- The outcome classification of Kite._req (everything after the try
block): return the response when Response.ok holds; on 429 call
Throttle.penalise and raise RuntimeError when it reports the ceiling
exceeded, otherwise fall through; then the 403 / 400 / generic raises.
A transport read timeout raises TimeoutError. -/
def Kite.classify (st : GovState) (hint : String)
    (out : TransportOutcome) : ClassifyOut :=
  match out with
  | .readTimeout => ⟨.error (.timeoutError (timeoutMsg hint)), st, []⟩
  | .response r =>
    if r.ok then ⟨.ok r, st, []⟩
    else
      let code := r.status_code
      if code = 429 then
        let p := Throttle.penalise st.th
        let st1 : GovState := { st with th := p.1 }
        let tr := [Effect.penaliseCall, Effect.sleepSec p.2.2]
        if p.2.1 then
          ⟨.error (.runtimeError (rateLimitMsg code r.reason)), st1, tr⟩
        else
          Kite.classifyTail st1 hint code r.reason tr
      else
        Kite.classifyTail st hint code r.reason []

/-- A sequence of Kite._req classifications, threading the governor
state through successive transport outcomes. -/
def Kite.classifyRun (st : GovState) (hint : String) :
    List TransportOutcome → GovState × List ClassifyOut
  | [] => (st, [])
  | o :: os =>
    let c := Kite.classify st hint o
    let rest := Kite.classifyRun c.state hint os
    (rest.1, c :: rest.2)

/-- Payload mapping passed to the transport (mapping of strings to
strings suffices for the claims; the payload is treated opaquely). -/
abbrev Payload := List (String × String)

/-- One invocation of the requests session recorded with the arguments
actually passed: the HTTP method issued, the url, the data and params
keyword arguments, and the timeout keyword argument (none when the call
site omits it, leaving the requests default of no timeout). -/
structure TransportCall where
  method : String
  url : String
  data : Option Payload
  params : Option Payload
  timeout : Option Nat
deriving DecidableEq

/-- The method dispatch of the try block of Kite._req:
  PUT    -> session.put(url, data=payload, timeout=timeout)
  DELETE -> session.delete(url)
  POST   -> session.post(url, data=payload, timeout=timeout)
  else   -> session.get(url, params=payload, timeout=timeout)
Note the DELETE arm passes neither the payload nor the timeout, and any
method other than PUT, DELETE or POST is issued as a GET. -/
def Kite.dispatch (method url : String) (payload : Option Payload)
    (timeout : Nat) : TransportCall :=
  if method = "PUT" then ⟨"PUT", url, payload, none, some timeout⟩
  else if method = "DELETE" then ⟨"DELETE", url, none, none, none⟩
  else if method = "POST" then ⟨"POST", url, payload, none, some timeout⟩
  else ⟨"GET", url, none, payload, some timeout⟩

/-- Full result of Kite._req: the classification outcome plus the list
of transport invocations made. -/
structure ReqOut where
  result : Except ReqError Resp
  state : GovState
  trace : List Effect
  calls : List TransportCall
deriving DecidableEq

/-- Kite._req: dispatch exactly one transport call from the method
string, then classify its outcome.  The transport collaborator is a
function from the recorded call to its outcome. -/
def Kite.req (st : GovState) (hint method url : String)
    (payload : Option Payload) (timeout : Nat)
    (transport : TransportCall → TransportOutcome) : ReqOut :=
  let call := Kite.dispatch method url payload timeout
  let c := Kite.classify st hint (transport call)
  ⟨c.result, c.state, c.trace, [call]⟩

/-- True exactly when the classification returned the response to the
caller rather than raising. -/
def isSuccess : Except ReqError Resp → Bool
  | .ok _ => true
  | .error _ => false

/-! ### Supporting lemmas -/

theorem lookup_map_val {β γ : Type} (f : β → γ) (l : List (String × β))
    (a : String) :
    (l.map (fun p => (p.1, f p.2))).lookup a = (l.lookup a).map f := by
  induction l with
  | nil => rfl
  | cons p l ih =>
    cases h : a == p.1 <;> simp [List.lookup, h, ih]

theorem Throttle.penaliseRun_state (t : Throttle) (n : Nat) :
    (Throttle.penaliseRun t n).penalty_count = t.penalty_count + n ∧
      (Throttle.penaliseRun t n).max_penalty_count = t.max_penalty_count := by
  induction n with
  | zero => exact ⟨rfl, rfl⟩
  | succ n ih =>
    refine ⟨?_, ?_⟩ <;>
      simp [Throttle.penaliseRun, Throttle.penalise, ih.1, ih.2, Nat.add_assoc]

theorem Throttle.checkRun_append (k : CatState) (l1 l2 : List Nat)
    (k1 : CatState) (s1 : List (Option Nat))
    (h : Throttle.checkRun k l1 = .ok (k1, s1)) :
    Throttle.checkRun k (l1 ++ l2) =
      (Throttle.checkRun k1 l2).map (fun p => (p.1, s1 ++ p.2)) := by
  induction l1 generalizing k s1 with
  | nil =>
    simp only [Throttle.checkRun, Except.ok.injEq, Prod.mk.injEq] at h
    obtain ⟨rfl, rfl⟩ := h
    simp only [List.nil_append]
    cases hl : Throttle.checkRun k l2 with
    | error e => simp [hl, Except.map]
    | ok p => simp [hl, Except.map]
  | cons t ts ih =>
    cases hc : Throttle.checkCat t k with
    | error e => simp [Throttle.checkRun, hc] at h
    | ok q =>
      obtain ⟨k', s⟩ := q
      cases hr : Throttle.checkRun k' ts with
      | error e => simp [Throttle.checkRun, hc, hr] at h
      | ok q2 =>
        obtain ⟨k'', ss⟩ := q2
        simp only [Throttle.checkRun, hc, hr, Except.ok.injEq,
          Prod.mk.injEq] at h
        obtain ⟨rfl, rfl⟩ := h
        have hmid := ih k' ss hr
        simp only [List.cons_append, Throttle.checkRun, hc, List.append_eq]
        cases hl : Throttle.checkRun k'' l2 with
        | error e => rw [hmid, hl]; rfl
        | ok p => rw [hmid, hl]; rfl

theorem Throttle.checkRun_quiet (N start c : Nat) (ts : List Nat)
    (h : ∀ j, j < ts.length → (c + j + 1) % N ≠ 0) :
    Throttle.checkRun ⟨N, none, some start, some c⟩ ts =
      .ok (⟨N, none, some start, some (c + ts.length)⟩,
        List.replicate ts.length none) := by
  induction ts generalizing c with
  | nil => simp [Throttle.checkRun]
  | cons t ts ih =>
    have h0 : (c + 1) % N ≠ 0 := by
      have := h 0 (by simp)
      simpa using this
    have hstep : Throttle.checkCat t ⟨N, none, some start, some c⟩
        = .ok (⟨N, none, some start, some (c + 1)⟩, none) := by
      simp [Throttle.checkCat, h0]
    have hrec := ih (c + 1) (fun j hj => by
      have := h (j + 1) (by simpa using Nat.succ_lt_succ hj)
      simpa [Nat.add_assoc, Nat.add_comm, Nat.add_left_comm] using this)
    simp only [Throttle.checkRun, hstep, hrec, List.length_cons,
      List.replicate_succ]
    simp [Nat.add_assoc, Nat.add_comm, Nat.add_left_comm]

/-! ### C6 -/

/-- C6: Throttle.penalise increments the penalty counter by exactly one
and sleeps one second on every call, and starting from a freshly
constructed Throttle with ceiling K the i-th call returns true exactly
when i exceeds K (so the first K calls return false and every later
call returns true). -/
theorem C6_penalise_threshold :
    (∀ t : Throttle,
      (Throttle.penalise t).1.penalty_count = t.penalty_count + 1 ∧
      1 ≤ (Throttle.penalise t).2.2) ∧
    (∀ (config : List (String × CatState)) (ts K i : Nat), 1 ≤ i →
      ((Throttle.penalise
          (Throttle.penaliseRun (Throttle.init config ts K) (i - 1))).2.1
        = true ↔ K < i)) := by
  constructor
  · intro t
    exact ⟨rfl, Nat.le_refl 1⟩
  · intro config ts K i hi
    have hs := Throttle.penaliseRun_state (Throttle.init config ts K) (i - 1)
    have h0 : (Throttle.init config ts K).penalty_count = 0 := rfl
    have hK : (Throttle.init config ts K).max_penalty_count = K := rfl
    simp only [Throttle.penalise, gt_iff_lt, decide_eq_true_eq]
    omega

/-- Witness for C6 at the configured ceiling 15: the 15th call still
returns false and the 16th returns true, each incrementing by one and
sleeping one second. -/
theorem C6_penalise_threshold_witness :
    ((Throttle.penalise
        (Throttle.penaliseRun (Throttle.init throttle_config 0 15) 14)).2.1
      = true ↔ 15 < 15) ∧
    ((Throttle.penalise
        (Throttle.penaliseRun (Throttle.init throttle_config 0 15) 15)).2.1
      = true ↔ 15 < 16) ∧
    (Throttle.penalise (Throttle.init throttle_config 0 15)).1.penalty_count
      = (Throttle.init throttle_config 0 15).penalty_count + 1 ∧
    1 ≤ (Throttle.penalise (Throttle.init throttle_config 0 15)).2.2 :=
  ⟨C6_penalise_threshold.2 throttle_config 0 15 15 (by decide),
   C6_penalise_threshold.2 throttle_config 0 15 16 (by decide),
   (C6_penalise_threshold.1 (Throttle.init throttle_config 0 15)).1,
   (C6_penalise_threshold.1 (Throttle.init throttle_config 0 15)).2⟩

/-! ### C7 -/

/-- C7: the constructor writes only the start timestamp into each
category record — count is left absent — so the first check on any
category of a Throttle built from a configuration holding only the rate
fields raises KeyError for the missing count key instead of performing
the increment. -/
theorem C7_check_keyerror_on_fresh (config : List (String × CatState))
    (ts maxp now : Nat) (key : String) (k : CatState)
    (hk : config.lookup key = some k) (hraw : k.count = none) :
    (Throttle.init config ts maxp).config.lookup key
        = some { k with start := some ts } ∧
    Throttle.check (Throttle.init config ts maxp) key now
        = .error (.keyError "count") := by
  have hl : (Throttle.init config ts maxp).config.lookup key
      = some { k with start := some ts } := by
    have hl' := lookup_map_val
      (fun d : CatState => { d with start := some ts }) config key
    rw [hk] at hl'
    exact hl'
  refine ⟨hl, ?_⟩
  simp [Throttle.check, hl, Throttle.checkCat, hraw]

/-- Witness for C7 on the client's own throttle_config: the quote
record after construction holds only rps and start, and the first check
raises KeyError for count. -/
theorem C7_check_keyerror_on_fresh_witness :
    (Throttle.init throttle_config 1000 15).config.lookup "quote"
        = some ⟨1, none, some 1000, none⟩ ∧
    Throttle.check (Throttle.init throttle_config 1000 15) "quote" 2000
        = .error (.keyError "count") :=
  C7_check_keyerror_on_fresh throttle_config 1000 15 2000 "quote"
    ⟨1, none, none, none⟩ rfl rfl

/-! ### C2 -/

/-- C2 counterexample: on a freshly constructed Throttle the category
record carries no count key, so with requestsPerSecond = 1 the first
(= Nth) check at elapsed time 0.5 s raises KeyError instead of sleeping
the 0.5 s the claim requires; the claimed run result never occurs. -/
theorem C2_counterexample :
    Throttle.checkRun ⟨1, none, some 0, none⟩ [500000000]
        = .error (.keyError "count") ∧
    ¬ ∃ k' : CatState,
        Throttle.checkRun ⟨1, none, some 0, none⟩ [500000000]
          = .ok (k', [some 500000000]) := by
  refine ⟨rfl, ?_⟩
  rintro ⟨k', hk⟩
  rw [show Throttle.checkRun ⟨1, none, some 0, none⟩ [500000000]
      = .error (.keyError "count") from rfl] at hk
  exact Except.noConfusion hk

/-- C2 amended: for a category with requestsPerSecond = N, no
per-minute ceiling, and the count key pre-seeded to 0 (the constructor
itself never writes it), the first N - 1 checks reach no sleep
statement and the Nth check sleeps exactly
round(elapsed, 1s) - elapsed nanoseconds, landing the call on a
whole-second boundary measured from the recorded start time. -/
theorem C2_nth_call_second_boundary (N start tN : Nat) (hN : 0 < N)
    (ts : List Nat) (hlen : ts.length = N - 1) :
    Throttle.checkRun ⟨N, none, some start, some 0⟩ (ts ++ [tN]) =
      .ok (⟨N, none, some start, some N⟩,
        List.replicate (N - 1) none ++
          [some (Throttle.round (tN - start) Throttle.sec - (tN - start))]) ∧
    Throttle.sec ∣ Throttle.round (tN - start) Throttle.sec := by
  have hquiet := Throttle.checkRun_quiet N start 0 ts (fun j hj => by
    rw [hlen] at hj
    have hlt : j + 1 < N := by omega
    have hmod := Nat.mod_eq_of_lt hlt
    simp only [Nat.zero_add]
    omega)
  have hlast : Throttle.checkRun ⟨N, none, some start, some (N - 1)⟩ [tN]
      = .ok (⟨N, none, some start, some N⟩,
          [some (Throttle.round (tN - start) Throttle.sec - (tN - start))]) := by
    have hmod : (N - 1 + 1) % N = 0 := by
      have : N - 1 + 1 = N := by omega
      rw [this, Nat.mod_self]
    have hcount : N - 1 + 1 = N := by omega
    simp [Throttle.checkRun, Throttle.checkCat, hmod, hcount]
  have happ := Throttle.checkRun_append ⟨N, none, some start, some 0⟩ ts [tN]
    ⟨N, none, some start, some (N - 1)⟩ (List.replicate ts.length none)
    (by rw [hquiet]; simp [hlen])
  refine ⟨?_, (Throttle.round_spec (tN - start) Throttle.sec (by decide)).1⟩
  rw [happ, hlast, hlen]
  rfl

/-- Witness for the amended C2 at N = 2, registration time 0, checks at
times 0 and 0.5 s: the first check sleeps nothing and the second sleeps
exactly 0.5 s, completing at the 1 s boundary. -/
theorem C2_nth_call_second_boundary_witness :
    (Throttle.checkRun ⟨2, none, some 0, some 0⟩ ([0] ++ [500000000]) =
      .ok (⟨2, none, some 0, some 2⟩,
        List.replicate 1 none ++
          [some (Throttle.round 500000000 Throttle.sec - 500000000)]) ∧
     Throttle.sec ∣ Throttle.round 500000000 Throttle.sec) ∧
    Throttle.round 500000000 Throttle.sec - 500000000 = 500000000 :=
  ⟨C2_nth_call_second_boundary 2 0 500000000 (by decide) [0] rfl, by decide⟩

/-! ### C3 -/

/-- C3: when a category has a per-minute ceiling M and the incremented
count is an exact multiple of M, check takes the minute-boundary wait —
whatever the per-second ceiling is, in particular also when the count
is simultaneously a multiple of it — and the per-second check is never
reached, so at most one ceiling wait occurs on the call. -/
theorem C3_minute_precedence (rps M start c now : Nat)
    (hM : (c + 1) % M = 0) :
    Throttle.checkCat now ⟨rps, some M, some start, some c⟩ =
      .ok (⟨rps, some M, some start, some (c + 1)⟩,
        some (Throttle.round (now - start) Throttle.minNs - (now - start))) := by
  simp [Throttle.checkCat, hM]

/-- Witness for C3 at the order-category configuration rps = 8,
rpm = 180, on the 360th call (360 is a multiple of both 8 and 180) with
elapsed 0.5 s: the sleep is 59.5 s to the next minute boundary, not the
0.5 s of the second boundary. -/
theorem C3_minute_precedence_witness :
    ((359 + 1) % 180 = 0 ∧ (359 + 1) % 8 = 0) ∧
    Throttle.checkCat 500000000 ⟨8, some 180, some 0, some 359⟩ =
      .ok (⟨8, some 180, some 0, some 360⟩, some 59500000000) :=
  ⟨by decide, C3_minute_precedence 8 180 0 359 500000000 (by decide)⟩

/-! ### Evaluation lemmas for the classification -/

theorem classify_429_eq (st : GovState) (hint reason : String) :
    Kite.classify st hint (.response ⟨429, reason⟩) =
      if st.th.max_penalty_count < st.th.penalty_count + 1 then
        ⟨.error (.runtimeError (rateLimitMsg 429 reason)),
          { st with th :=
            { st.th with penalty_count := st.th.penalty_count + 1 } },
          [Effect.penaliseCall, Effect.sleepSec 1]⟩
      else
        ⟨.error (.connectionError (genericMsg hint 429 reason)),
          { st with th :=
            { st.th with penalty_count := st.th.penalty_count + 1 } },
          [Effect.penaliseCall, Effect.sleepSec 1]⟩ := by
  by_cases hp : st.th.max_penalty_count < st.th.penalty_count + 1 <;>
    simp [Kite.classify, Resp.ok, Throttle.penalise, Kite.classifyTail, hp]

theorem classify_not429_eq (st : GovState) (hint : String) (r : Resp)
    (hok : r.ok = false) (h429 : r.status_code ≠ 429) :
    Kite.classify st hint (.response r)
      = Kite.classifyTail st hint r.status_code r.reason [] := by
  simp [Kite.classify, hok, h429]

theorem classifyTail_raises (st : GovState) (hint : String) (code : Nat)
    (reason : String) (tr : List Effect) :
    ∃ msg, (Kite.classifyTail st hint code reason tr).result
      = .error (.connectionError msg) := by
  unfold Kite.classifyTail
  by_cases h3 : code = 403
  · exact ⟨genericMsg hint code sessionExpiredReason, by simp [h3]⟩
  · by_cases h4 : code = 400
    · exact ⟨genericMsg hint code badRequestReason, by simp [h3, h4]⟩
    · exact ⟨genericMsg hint code reason, by simp [h3, h4]⟩

/-! ### C1 -/

/-- C1: a 429 response makes the governor call Throttle.penalise
exactly once (the counter rises by exactly one); the raised failure is
the fatal RuntimeError (RateLimitExceeded) exactly when the counter
after the increment exceeds max_penalty_count, and otherwise the
attempt still fails with the 429-carrying ConnectionError
(UpstreamRejected).  With the configured ceiling 15, sixteen straight
429s from a fresh throttle fail non-fatally on calls 1-15 and fatally
on call 16. -/
theorem C1_429_penalty_escalation :
    (∀ (st : GovState) (hint reason : String),
      countPenalise (Kite.classify st hint (.response ⟨429, reason⟩)).trace
          = 1 ∧
      (Kite.classify st hint (.response ⟨429, reason⟩)).state.th.penalty_count
          = st.th.penalty_count + 1 ∧
      ((Kite.classify st hint (.response ⟨429, reason⟩)).result
          = .error (.runtimeError (rateLimitMsg 429 reason))
        ↔ st.th.max_penalty_count < st.th.penalty_count + 1) ∧
      (st.th.penalty_count + 1 ≤ st.th.max_penalty_count →
        (Kite.classify st hint (.response ⟨429, reason⟩)).result
          = .error (.connectionError (genericMsg hint 429 reason)))) ∧
    (Kite.classifyRun ⟨⟨[], 0, 15⟩, true⟩ "Quote"
        (List.replicate 16 (.response ⟨429, "Too Many Requests"⟩))).2.map
        ClassifyOut.result =
      List.replicate 15
          (.error (.connectionError "Quote | 429: Too Many Requests")) ++
        [.error (.runtimeError "429: Too Many Requests")] := by
  constructor
  · intro st hint reason
    by_cases hp : st.th.max_penalty_count < st.th.penalty_count + 1
    · rw [classify_429_eq, if_pos hp]
      exact ⟨rfl, rfl, iff_of_true rfl hp,
        fun hle => absurd hle (not_le.mpr hp)⟩
    · rw [classify_429_eq, if_neg hp]
      exact ⟨rfl, rfl, iff_of_false (by simp) hp, fun _ => rfl⟩
  · rfl

/-- Witness for C1: with the fresh throttle (counter 0, ceiling 15) a
429 penalises once and fails non-fatally; with the counter already at
15 the same 429 fails fatally. -/
theorem C1_429_penalty_escalation_witness :
    countPenalise (Kite.classify ⟨⟨[], 0, 15⟩, true⟩ "Quote"
        (.response ⟨429, "Too Many Requests"⟩)).trace = 1 ∧
    (Kite.classify ⟨⟨[], 0, 15⟩, true⟩ "Quote"
        (.response ⟨429, "Too Many Requests"⟩)).result
      = .error (.connectionError (genericMsg "Quote" 429 "Too Many Requests")) ∧
    (Kite.classify ⟨⟨[], 15, 15⟩, true⟩ "Quote"
        (.response ⟨429, "Too Many Requests"⟩)).result
      = .error (.runtimeError (rateLimitMsg 429 "Too Many Requests")) :=
  ⟨(C1_429_penalty_escalation.1 ⟨⟨[], 0, 15⟩, true⟩ "Quote"
      "Too Many Requests").1,
   (C1_429_penalty_escalation.1 ⟨⟨[], 0, 15⟩, true⟩ "Quote"
      "Too Many Requests").2.2.2 (by decide),
   (C1_429_penalty_escalation.1 ⟨⟨[], 15, 15⟩, true⟩ "Quote"
      "Too Many Requests").2.2.1.mpr (by decide)⟩

/-! ### C4 -/

/-- C4 counterexample: on a 403 with the cookie file already absent the
governor performs zero unlink calls, not the exactly-once deletion the
claim requires. -/
theorem C4_counterexample :
    countUnlink (Kite.classify ⟨⟨[], 0, 15⟩, false⟩ "Quote"
        (.response ⟨403, "Forbidden"⟩)).trace = 0 ∧
    ¬ countUnlink (Kite.classify ⟨⟨[], 0, 15⟩, false⟩ "Quote"
        (.response ⟨403, "Forbidden"⟩)).trace = 1 :=
  ⟨rfl, by decide⟩

/-- C4 amended: on a 403 the governor deletes the persisted cookie file
exactly once when it exists and not at all when it is already absent
(the unlink is guarded by an existence check); in both cases the
credentials are absent afterwards, the throttle is untouched, and the
call then fails with the SessionExpired ConnectionError. -/
theorem C4_403_guarded_delete (st : GovState) (hint reason : String) :
    (Kite.classify st hint (.response ⟨403, reason⟩)).result
      = .error (.connectionError (genericMsg hint 403 sessionExpiredReason)) ∧
    (Kite.classify st hint (.response ⟨403, reason⟩)).state.cookie_exists
      = false ∧
    countUnlink (Kite.classify st hint (.response ⟨403, reason⟩)).trace
      = (if st.cookie_exists then 1 else 0) ∧
    (Kite.classify st hint (.response ⟨403, reason⟩)).state.th = st.th ∧
    countPenalise (Kite.classify st hint (.response ⟨403, reason⟩)).trace
      = 0 := by
  have heq : Kite.classify st hint (.response ⟨403, reason⟩)
      = Kite.classifyTail st hint 403 reason [] :=
    classify_not429_eq st hint ⟨403, reason⟩ rfl (by simp)
  rw [heq]
  by_cases hc : st.cookie_exists <;>
    simp [Kite.classifyTail, hc, countUnlink, countPenalise,
      Effect.isUnlink, Effect.isPenalise]

/-! ### C5 -/

/-- C5 counterexample: a completed 304 response — not a 2xx status — is
returned to the caller as a success, producing no typed failure. -/
theorem C5_counterexample :
    (Kite.classify ⟨⟨[], 0, 15⟩, true⟩ "Quote"
        (.response ⟨304, "Not Modified"⟩)).result
      = .ok ⟨304, "Not Modified"⟩ ∧
    ¬ (200 ≤ 304 ∧ 304 < 300) ∧
    ¬ ∃ e, (Kite.classify ⟨⟨[], 0, 15⟩, true⟩ "Quote"
        (.response ⟨304, "Not Modified"⟩)).result = .error e := by
  refine ⟨rfl, by decide, ?_⟩
  rintro ⟨e, he⟩
  rw [show (Kite.classify ⟨⟨[], 0, 15⟩, true⟩ "Quote"
      (.response ⟨304, "Not Modified"⟩)).result
      = .ok ⟨304, "Not Modified"⟩ from rfl] at he
  exact Except.noConfusion he

/-- C5 amended: a completed response is a success exactly when the
requests-library ok predicate holds, i.e. when the status is outside
400..599 — so 3xx statuses are returned unchanged as successes — and
every response with ok false (the 4xx/5xx statuses) produces exactly
one typed failure. -/
theorem C5_success_iff_requests_ok (st : GovState) (hint : String)
    (r : Resp) :
    isSuccess (Kite.classify st hint (.response r)).result = r.ok ∧
    (r.ok = true → Kite.classify st hint (.response r) = ⟨.ok r, st, []⟩) ∧
    (r.ok = false →
      ∃ e, (Kite.classify st hint (.response r)).result = .error e) ∧
    r.ok = decide (r.status_code < 400 ∨ 600 ≤ r.status_code) := by
  have hok : r.ok = true → Kite.classify st hint (.response r)
      = ⟨.ok r, st, []⟩ := by
    intro h
    simp [Kite.classify, h]
  have herr : r.ok = false →
      ∃ e, (Kite.classify st hint (.response r)).result = .error e := by
    intro h
    obtain ⟨c, reason⟩ := r
    by_cases h429 : c = 429
    · subst h429
      rw [classify_429_eq]
      by_cases hp : st.th.max_penalty_count < st.th.penalty_count + 1
      · exact ⟨_, by rw [if_pos hp]⟩
      · exact ⟨_, by rw [if_neg hp]⟩
    · obtain ⟨msg, hm⟩ := classifyTail_raises st hint c reason []
      refine ⟨.connectionError msg, ?_⟩
      rw [classify_not429_eq st hint ⟨c, reason⟩ h (by simpa using h429)]
      exact hm
  refine ⟨?_, hok, herr, rfl⟩
  cases hb : r.ok with
  | true =>
    rw [hok hb]
    rfl
  | false =>
    obtain ⟨e, he⟩ := herr hb
    rw [he]
    rfl

/-- Witness for the amended C5: a 200 is returned unchanged as a
success and a 500 produces a typed failure. -/
theorem C5_success_iff_requests_ok_witness :
    isSuccess (Kite.classify ⟨⟨[], 0, 15⟩, true⟩ "Quote"
        (.response ⟨200, "OK"⟩)).result = Resp.ok ⟨200, "OK"⟩ ∧
    Kite.classify ⟨⟨[], 0, 15⟩, true⟩ "Quote" (.response ⟨200, "OK"⟩)
      = ⟨.ok ⟨200, "OK"⟩, ⟨⟨[], 0, 15⟩, true⟩, []⟩ ∧
    ∃ e, (Kite.classify ⟨⟨[], 0, 15⟩, true⟩ "Quote"
        (.response ⟨500, "Server Error"⟩)).result = .error e :=
  ⟨(C5_success_iff_requests_ok ⟨⟨[], 0, 15⟩, true⟩ "Quote" ⟨200, "OK"⟩).1,
   (C5_success_iff_requests_ok ⟨⟨[], 0, 15⟩, true⟩ "Quote"
      ⟨200, "OK"⟩).2.1 (by decide),
   (C5_success_iff_requests_ok ⟨⟨[], 0, 15⟩, true⟩ "Quote"
      ⟨500, "Server Error"⟩).2.2.1 (by decide)⟩

/-! ### C8 -/

/-- C8 counterexample: on a 400 whose upstream reason phrase is
UPSTREAM_REASON_XYZ the raised failure carries the fixed client-side
message, not the upstream reason. -/
theorem C8_counterexample :
    (Kite.classify ⟨⟨[], 0, 15⟩, true⟩ "Quote"
        (.response ⟨400, "UPSTREAM_REASON_XYZ"⟩)).result
      = .error (.connectionError
          "Quote | 400: Missing or bad request parameters or values") ∧
    (Kite.classify ⟨⟨[], 0, 15⟩, true⟩ "Quote"
        (.response ⟨400, "UPSTREAM_REASON_XYZ"⟩)).result
      ≠ .error (.connectionError "Quote | 400: UPSTREAM_REASON_XYZ") :=
  ⟨rfl, by decide⟩

/-- C8 amended: on a 400 the governor fails with the BadRequest
ConnectionError carrying the fixed client-side reason string
(badRequestReason), whatever reason the upstream response reported, and
changes no state. -/
theorem C8_400_fixed_reason (st : GovState) (hint reason : String) :
    Kite.classify st hint (.response ⟨400, reason⟩)
      = ⟨.error (.connectionError (genericMsg hint 400 badRequestReason)),
          st, []⟩ := by
  rw [classify_not429_eq st hint ⟨400, reason⟩ rfl (by simp)]
  simp [Kite.classifyTail]

/-! ### C9 -/

/-- C9 counterexample: a DELETE request with a payload and an explicit
timeout reaches the transport with neither — session.delete(url) is
called with the url alone. -/
theorem C9_counterexample :
    Kite.dispatch "DELETE" "https://api.kite.trade/orders/regular/1"
        (some [("order_id", "1")]) 15
      = ⟨"DELETE", "https://api.kite.trade/orders/regular/1",
          none, none, none⟩ ∧
    ¬ ((Kite.dispatch "DELETE" "https://api.kite.trade/orders/regular/1"
          (some [("order_id", "1")]) 15).timeout = some 15 ∧
       (Kite.dispatch "DELETE" "https://api.kite.trade/orders/regular/1"
          (some [("order_id", "1")]) 15).data = some [("order_id", "1")]) :=
  ⟨rfl, by decide⟩

/-- C9 amended: every Kite._req invokes the transport exactly once with
the caller's url; for GET, POST and PUT the payload and timeout are
forwarded unchanged (the payload as params for GET, as data for POST
and PUT), while for DELETE the payload and timeout are dropped and only
the url is passed. -/
theorem C9_transport_forwarding (st : GovState) (hint url : String)
    (p : Option Payload) (t : Nat)
    (tr : TransportCall → TransportOutcome) :
    ((Kite.req st hint "GET" url p t tr).calls
        = [⟨"GET", url, none, p, some t⟩] ∧
     (Kite.req st hint "POST" url p t tr).calls
        = [⟨"POST", url, p, none, some t⟩] ∧
     (Kite.req st hint "PUT" url p t tr).calls
        = [⟨"PUT", url, p, none, some t⟩] ∧
     (Kite.req st hint "DELETE" url p t tr).calls
        = [⟨"DELETE", url, none, none, none⟩]) ∧
    (∀ method : String,
      (Kite.req st hint method url p t tr).calls.length = 1) :=
  ⟨⟨rfl, rfl, rfl, rfl⟩, fun _ => rfl⟩

/-! ### C10 -/

/-- C10: a 2xx response is returned unchanged with the governor state
untouched — in particular no penalty increment and no cookie deletion
occur on the success path. -/
theorem C10_2xx_frame (st : GovState) (hint : String) (r : Resp)
    (h2 : 200 ≤ r.status_code) (h3 : r.status_code < 300) :
    Kite.classify st hint (.response r) = ⟨.ok r, st, []⟩ ∧
    countPenalise (Kite.classify st hint (.response r)).trace = 0 ∧
    countUnlink (Kite.classify st hint (.response r)).trace = 0 := by
  have hok : r.ok = true := by
    simp only [Resp.ok, decide_eq_true_eq]
    omega
  have heq : Kite.classify st hint (.response r) = ⟨.ok r, st, []⟩ := by
    simp [Kite.classify, hok]
  refine ⟨heq, ?_, ?_⟩ <;> rw [heq] <;> rfl

/-- Witness for C10 at a concrete 200 response and a throttle whose
counter already sits at 3: everything is returned unchanged. -/
theorem C10_2xx_frame_witness :
    Kite.classify ⟨⟨[], 3, 15⟩, true⟩ "Quote" (.response ⟨200, "OK"⟩)
      = ⟨.ok ⟨200, "OK"⟩, ⟨⟨[], 3, 15⟩, true⟩, []⟩ ∧
    countPenalise (Kite.classify ⟨⟨[], 3, 15⟩, true⟩ "Quote"
        (.response ⟨200, "OK"⟩)).trace = 0 ∧
    countUnlink (Kite.classify ⟨⟨[], 3, 15⟩, true⟩ "Quote"
        (.response ⟨200, "OK"⟩)).trace = 0 :=
  C10_2xx_frame ⟨⟨[], 3, 15⟩, true⟩ "Quote" ⟨200, "OK"⟩ (by decide)
    (by decide)

end KiteTrader
